import Mathlib

/-!
# Verification of the endless-runner simulation core (`src/game.js`)

Shallow embedding of the simulation state and per-frame update of the
three-lane endless-runner game.  JavaScript numbers are modelled as exact
rationals (`ℚ`); the integer score is `ℤ` (`Math.floor` becomes `Int.floor`).

The canvas dimensions `W`, `H` are set by the host HTML page (not part of
`src/`), so every definition is parameterised by an `Env` carrying them.
`Math.random()` in `spawnObstacle` is modelled by passing the chosen obstacle
kind as an explicit oracle argument (the randomly chosen lane on line 126 of
the source is computed but never stored or read, so it does not appear in the
model).

DOM reads/writes (canvas drawing, score label, restart button) are pure
side effects on the rendering layer and are omitted; everything else follows
the source line by line.
-/

/- Batteries marks the `Rat` field operations `@[irreducible]`, which blocks
`decide`-style evaluation of concrete simulation states in the elaborator
(the kernel is unaffected).  Restore the default reducibility so concrete
runs of the simulation can be settled by `decide`. -/
set_option allowUnsafeReducibility true in
attribute [semireducible] Rat.add Rat.mul Rat.sub Rat.inv Rat.ofScientific

set_option maxRecDepth 2048

namespace Runner

/-- Obstacle variant chosen at spawn time (`'low'` / `'tall'`, line 127). -/
inductive Kind where
  | low
  | tall
deriving DecidableEq, Repr

/-- The record pushed by `spawnObstacle` (line 132): `{x, y, w, h, kind}`. -/
structure Obstacle where
  x : ℚ
  y : ℚ
  w : ℚ
  h : ℚ
  kind : Kind
deriving DecidableEq, Repr

/-- Canvas dimensions `W`, `H` (line 6); fixed by the HTML page, outside `src/`. -/
structure Env where
  W : ℚ
  H : ℚ
deriving DecidableEq, Repr

/-- `LANES = [W*0.25, W*0.5, W*0.75]` (line 7), indexed by lane number. -/
def LANES (E : Env) : ℤ → ℚ
  | 0 => E.W * 0.25
  | 1 => E.W * 0.5
  | _ => E.W * 0.75

/-- `LANE_INDEX_MIN` (line 8). -/
def LANE_INDEX_MIN : ℤ := 0

/-- `LANE_INDEX_MAX` (line 8). -/
def LANE_INDEX_MAX : ℤ := 2

/-- `GROUND_Y = H - 120` (line 9). -/
def GROUND_Y (E : Env) : ℚ := E.H - 120

/-- `GRAVITY` (line 10), px/s^2. -/
def GRAVITY : ℚ := 2200

/-- `JUMP_VY` (line 11), px/s. -/
def JUMP_VY : ℚ := -1100

/-- `SLIDE_TIME` (line 12), seconds. -/
def SLIDE_TIME : ℚ := 0.5

/-- `PLAYER_SPEED` (line 13), px/s. -/
def PLAYER_SPEED : ℚ := 420

/-- `SPAWN_EVERY` (line 14), seconds between obstacle spawns. -/
def SPAWN_EVERY : ℚ := 1.0

/-- `OBSTACLE_SPEED = PLAYER_SPEED` (line 15). -/
def OBSTACLE_SPEED : ℚ := PLAYER_SPEED

/-- `PLAYER_W` (line 16). -/
def PLAYER_W : ℚ := 80

/-- `PLAYER_H` (line 16). -/
def PLAYER_H : ℚ := 120

/-- `PLAYER_H_SLIDE` (line 17). -/
def PLAYER_H_SLIDE : ℚ := 70

/-- `LANE_SWITCH_TIME` (line 18), seconds for a smooth lane change. -/
def LANE_SWITCH_TIME : ℚ := 0.15

/-- The module-level mutable simulation state (lines 21–34). -/
structure GameState where
  running : Bool
  score : ℤ
  lastTime : ℚ
  laneIndex : ℤ
  laneProgress : ℚ
  laneFrom : ℤ
  laneTo : ℤ
  y : ℚ
  vy : ℚ
  sliding : Bool
  slideTimer : ℚ
  obstacles : List Obstacle
  spawnTimer : ℚ
deriving DecidableEq, Repr

/-- `clamp(v, a, b) = Math.max(a, Math.min(b, v))` (line 40), used on lane indices. -/
def clamp (v a b : ℤ) : ℤ := max a (min b v)

/-- `currentPlayerH()` (line 107); the source reads the global `sliding`,
here passed explicitly since the flag changes within a frame. -/
def currentPlayerH (sliding : Bool) : ℚ :=
  if sliding then PLAYER_H_SLIDE else PLAYER_H

/-- The state installed by `reset()` (lines 42–55); DOM writes and the
`requestAnimationFrame` call are omitted.  `lastTime = 0` is the sentinel
meaning "no previous frame". -/
def initState (E : Env) : GameState :=
  { running := true
    score := 0
    lastTime := 0
    laneIndex := 1
    laneProgress := 1
    laneFrom := 1
    laneTo := 1
    y := GROUND_Y E - PLAYER_H
    vy := 0
    sliding := false
    slideTimer := 0
    obstacles := []
    spawnTimer := 0 }

/-- `reset()` (lines 42–55): overwrites every simulation field, ignoring the
previous state. -/
def reset (E : Env) (_s : GameState) : GameState := initState E

/-- `beginLaneMove(newIndex)` (lines 94–101): the requested index is clamped
to `[0, 2]`, an identical target is a no-op, otherwise the interpolation is
restarted from the logical lane. -/
def beginLaneMove (ni : ℤ) (s : GameState) : GameState :=
  if clamp ni LANE_INDEX_MIN LANE_INDEX_MAX = s.laneTo then s
  else
    { s with laneFrom := s.laneIndex,
             laneTo := clamp ni LANE_INDEX_MIN LANE_INDEX_MAX,
             laneIndex := clamp ni LANE_INDEX_MIN LANE_INDEX_MAX,
             laneProgress := 0 }

/-- `moveLeft()` (line 102). -/
def moveLeft (s : GameState) : GameState := beginLaneMove (s.laneIndex - 1) s

/-- `moveRight()` (line 103). -/
def moveRight (s : GameState) : GameState := beginLaneMove (s.laneIndex + 1) s

/-- `onGround()` (line 106): `y >= GROUND_Y - currentPlayerH()`. -/
def onGround (E : Env) (s : GameState) : Bool :=
  decide (GROUND_Y E - currentPlayerH s.sliding ≤ s.y)

/-- `jump()` (lines 109–114). -/
def jump (E : Env) (s : GameState) : GameState :=
  if onGround E s && s.running then { s with sliding := false, vy := JUMP_VY }
  else s

/-- `slide()` (lines 115–121). -/
def slide (E : Env) (s : GameState) : GameState :=
  if !s.running then s
  else if !s.sliding && onGround E s then
    { s with sliding := true, slideTimer := SLIDE_TIME }
  else s

/-- `spawnObstacle()` (lines 124–133).  The random kind is the oracle `k`;
the random `lane` computed on line 126 is dead (never stored in the pushed
record), so it is not modelled. -/
def spawnObstacle (E : Env) (k : Kind) : Obstacle :=
  let h : ℚ := if k = Kind.low then 70 else 120
  { x := E.W + 100, y := GROUND_Y E - h, w := 80, h := h, kind := k }

/-- `collides(ax,ay,aw,ah,bx,by,bw,bh)` (lines 136–138), the strict AABB
overlap test.  (The source's parameter `by` is renamed `b_y`: `by` is a
keyword here.) -/
def collides (ax ay aw ah bx b_y bw bh : ℚ) : Bool :=
  decide (ax < bx + bw ∧ ax + aw > bx ∧ ay < b_y + bh ∧ ay + ah > b_y)

/-- `easeOutCubic(t) = 1 - (1-t)^3` (line 230). -/
def easeOutCubic (t : ℚ) : ℚ := 1 - (1 - t) ^ 3

/-- The player's interpolated horizontal position (line 183):
`LANES[laneFrom] + (LANES[laneTo]-LANES[laneFrom]) * easeOutCubic(laneProgress)`. -/
def playerX (E : Env) (s : GameState) : ℚ :=
  LANES E s.laneFrom + (LANES E s.laneTo - LANES E s.laneFrom) * easeOutCubic s.laneProgress

/-- The body of `loop(ts)` after `dt` has been computed (lines 169–225):
score update, lane interpolation, vertical physics with ground clamp, slide
timer, obstacle spawn, obstacle move + prune, collision scan.  Drawing calls
are omitted.  The reverse-index iteration with `splice` on lines 202–206
visits each obstacle exactly once and preserves the relative order of the
survivors, hence the map-then-filter below. -/
def stepSim (E : Env) (dt : ℚ) (k : Kind) (s : GameState) : GameState :=
  -- line 170: if (running) score += Math.floor(200 * dt)
  let score := if s.running then s.score + ⌊(200 : ℚ) * dt⌋ else s.score
  -- lines 180–182: smooth lane interpolation
  let laneProgress :=
    if s.laneProgress < 1 then min 1 (s.laneProgress + dt / LANE_SWITCH_TIME)
    else s.laneProgress
  -- line 183 (with the already-updated progress)
  let laneX := LANES E s.laneFrom + (LANES E s.laneTo - LANES E s.laneFrom) * easeOutCubic laneProgress
  -- lines 186–189: vertical physics and ground clamp (stance before slide update)
  let vy0 := s.vy + GRAVITY * dt
  let y0 := s.y + vy0 * dt
  let groundTop := GROUND_Y E - currentPlayerH s.sliding
  let y1 := if y0 > groundTop then groundTop else y0
  let vy1 := if y0 > groundTop then 0 else vy0
  -- lines 191–194: slide timer
  let slideTimer1 := if s.sliding then s.slideTimer - dt else s.slideTimer
  let sliding1 :=
    if s.sliding then (if s.slideTimer - dt ≤ 0 then false else true)
    else s.sliding
  -- lines 197–201: spawn timer (reset to 0, not reduced by the interval)
  let st0 := s.spawnTimer + dt
  let spawnNow : Bool := decide (SPAWN_EVERY ≤ st0)
  let spawnTimer1 := if spawnNow then 0 else st0
  let obs0 := if spawnNow then s.obstacles ++ [spawnObstacle E k] else s.obstacles
  -- lines 202–206: move every obstacle left, prune those with x < -150
  let obs1 := (obs0.map fun o => { o with x := o.x - OBSTACLE_SPEED * dt }).filter
      fun o => !decide (o.x < -150)
  -- lines 212–213: player box height uses the stance after the slide update
  let ph := currentPlayerH sliding1
  -- lines 217–225: collision scan, stopping the run on the first hit
  let hit := obs1.any fun o =>
    collides (laneX - PLAYER_W / 2) y1 PLAYER_W ph (o.x - o.w / 2) o.y o.w o.h
  let running1 := s.running && !hit
  { running := running1
    score := score
    lastTime := s.lastTime
    laneIndex := s.laneIndex
    laneProgress := laneProgress
    laneFrom := s.laneFrom
    laneTo := s.laneTo
    y := y1
    vy := vy1
    sliding := sliding1
    slideTimer := slideTimer1
    obstacles := obs1
    spawnTimer := spawnTimer1 }

/-- `loop(ts)` (lines 164–167 plus the body): the sentinel `!lastTime` (a
zero `lastTime`) makes the first frame a zero-`dt` step, then
`dt = min(0.032, (ts - lastTime)/1000)` and `lastTime := ts`. -/
def loopStep (E : Env) (ts : ℚ) (k : Kind) (s : GameState) : GameState :=
  let last := if s.lastTime = 0 then ts else s.lastTime
  let dt := min 0.032 ((ts - last) / 1000)
  stepSim E dt k { s with lastTime := ts }

/-- One external event: a frame callback with its timestamp and spawn oracle,
or one of the five abstract input commands. -/
inductive Ev where
  | frame (ts : ℚ) (k : Kind)
  | left
  | right
  | up
  | down
  | restart
deriving DecidableEq, Repr

/-- Apply one event to the state. -/
def applyEv (E : Env) (s : GameState) : Ev → GameState
  | Ev.frame ts k => loopStep E ts k s
  | Ev.left => moveLeft s
  | Ev.right => moveRight s
  | Ev.up => jump E s
  | Ev.down => slide E s
  | Ev.restart => reset E s

/-- Run a list of events from a state. -/
def runTrace (E : Env) (evs : List Ev) (s : GameState) : GameState :=
  evs.foldl (applyEv E) s

/-- Run a list of frame steps, each with its own `dt` and spawn oracle. -/
def runFrames (E : Env) (l : List (ℚ × Kind)) (s : GameState) : GameState :=
  l.foldl (fun st p => stepSim E p.1 p.2 st) s

/-- States reachable from a fresh run by any sequence of events. -/
inductive Reachable (E : Env) : GameState → Prop where
  | init : Reachable E (initState E)
  | step (s : GameState) (ev : Ev) : Reachable E s → Reachable E (applyEv E s ev)

/-- The spawn subsystem in isolation (lines 197–201): a (spawn count, timer)
pair advanced by one frame of length `dt`. -/
def spawnTick (dt : ℚ) (p : ℕ × ℚ) : ℕ × ℚ :=
  let st := p.2 + dt
  if SPAWN_EVERY ≤ st then (p.1 + 1, 0) else (p.1, st)

/-- `n` frames of the spawn subsystem at constant `dt`. -/
def spawnRun (dt : ℚ) (n : ℕ) (p : ℕ × ℚ) : ℕ × ℚ := (spawnTick dt)^[n] p

/-- A concrete environment for witnesses: a 400×600 canvas. -/
def E0 : Env := { W := 400, H := 600 }

/-- Trace used by counterexamples: one slide command followed by `n` frame
callbacks 32 ms apart (the first frame is the zero-`dt` sentinel frame). -/
def slideTrace (n : ℕ) : List Ev :=
  Ev.down :: (List.range n).map fun i => Ev.frame (32 * ((i : ℚ) + 1)) Kind.low

/-! ## Helper lemmas -/

/-- `List.any` only depends on the multiset of elements. -/
lemma any_of_perm {l1 l2 : List Obstacle} (h : List.Perm l1 l2)
    (p : Obstacle → Bool) : l1.any p = l2.any p := by
  rw [Bool.eq_iff_iff]
  simp only [List.any_eq_true]
  exact ⟨fun ⟨a, ha, hp⟩ => ⟨a, h.mem_iff.mp ha, hp⟩,
         fun ⟨a, ha, hp⟩ => ⟨a, h.mem_iff.mpr ha, hp⟩⟩

/-- While running, a frame adds exactly `⌊200 dt⌋` to the score (line 170). -/
lemma stepSim_score (E : Env) (dt : ℚ) (k : Kind) (s : GameState)
    (hr : s.running = true) :
    (stepSim E dt k s).score = s.score + ⌊(200 : ℚ) * dt⌋ := by
  simp [stepSim, hr]

/-- Once `running` is false, a frame changes neither the score nor the flag. -/
lemma stepSim_not_running (E : Env) (dt : ℚ) (k : Kind) (s : GameState)
    (h : s.running = false) :
    (stepSim E dt k s).score = s.score ∧ (stepSim E dt k s).running = false := by
  simp [stepSim, h]

/-- Every state produced by running a trace from a reachable state is reachable. -/
lemma reachable_runTrace (E : Env) (evs : List Ev) (s : GameState)
    (h : Reachable E s) : Reachable E (runTrace E evs s) := by
  induction evs generalizing s with
  | nil => exact h
  | cons e t ih => exact ih (applyEv E s e) (Reachable.step s e h)

/-- A frame of length `dt = 0` advances no accumulator; the only possible
change is the `dt`-independent ground clamp of lines 188–189, which snaps
`y` up to the current stance's ground line (and zeroes `vy`) exactly when
the player is below it. -/
lemma stepSim_zero_dt (E : Env) (k : Kind) (s : GameState)
    (hlp : s.laneProgress ≤ 1)
    (hst : s.spawnTimer < SPAWN_EVERY)
    (hobs : ∀ o ∈ s.obstacles, (-150 : ℚ) ≤ o.x) :
    (stepSim E 0 k s).score = s.score ∧
    (stepSim E 0 k s).laneProgress = s.laneProgress ∧
    (stepSim E 0 k s).y
      = (if GROUND_Y E - currentPlayerH s.sliding < s.y
         then GROUND_Y E - currentPlayerH s.sliding else s.y) ∧
    (stepSim E 0 k s).vy
      = (if GROUND_Y E - currentPlayerH s.sliding < s.y then 0 else s.vy) ∧
    (stepSim E 0 k s).slideTimer = s.slideTimer ∧
    (stepSim E 0 k s).spawnTimer = s.spawnTimer ∧
    (stepSim E 0 k s).obstacles = s.obstacles := by
  refine ⟨?_, ?_, ?_, ?_, ?_, ?_, ?_⟩
  · simp [stepSim]
  · simp [stepSim, min_eq_right hlp]
  · simp [stepSim]
  · simp [stepSim]
  · simp [stepSim]
  · simp [stepSim, not_le.mpr hst]
  · have hall : ∀ o ∈ s.obstacles, (!decide (o.x < (-150 : ℚ))) = true := by
      intro o ho
      simp [not_lt.mpr (hobs o ho)]
    simp [stepSim, not_le.mpr hst, List.filter_eq_self.mpr hall]

/-- **C1 (amended).** A duplicate timestamp (so the computed `dt` is zero)
advances no accumulator: score, lane progress, slide timer, spawn timer and
obstacle positions are all unchanged, and no negative integration occurs.
Vertical state is governed by the `dt`-independent ground clamp: `y` and `vy`
are also unchanged when the player is at or above the current stance's
ground line, and otherwise (reachable right after a slide expires) `y` snaps
up to that ground line with `vy := 0`.  (A strictly decreasing timestamp is
NOT covered: the loop clamps `dt` only from above, so `dt < 0` integrates
backwards — see the counterexample.) -/
theorem c1_duplicate_ts_zero_step (E : Env) (ts : ℚ) (k : Kind) (s : GameState)
    (hts : ts = s.lastTime) (h0 : s.lastTime ≠ 0)
    (hlp : s.laneProgress ≤ 1)
    (hst : s.spawnTimer < SPAWN_EVERY)
    (hobs : ∀ o ∈ s.obstacles, (-150 : ℚ) ≤ o.x) :
    (loopStep E ts k s).score = s.score ∧
    (loopStep E ts k s).laneProgress = s.laneProgress ∧
    (loopStep E ts k s).y
      = (if GROUND_Y E - currentPlayerH s.sliding < s.y
         then GROUND_Y E - currentPlayerH s.sliding else s.y) ∧
    (loopStep E ts k s).vy
      = (if GROUND_Y E - currentPlayerH s.sliding < s.y then 0 else s.vy) ∧
    (loopStep E ts k s).slideTimer = s.slideTimer ∧
    (loopStep E ts k s).spawnTimer = s.spawnTimer ∧
    (loopStep E ts k s).obstacles = s.obstacles := by
  have hdt : min (0.032 : ℚ) ((ts - (if s.lastTime = 0 then ts else s.lastTime)) / 1000) = 0 := by
    rw [if_neg h0, hts, sub_self]
    norm_num
  have hstep : loopStep E ts k s = stepSim E 0 k { s with lastTime := ts } := by
    show stepSim E (min (0.032 : ℚ) ((ts - (if s.lastTime = 0 then ts else s.lastTime)) / 1000)) k
        { s with lastTime := ts } = _
    rw [hdt]
  rw [hstep]
  exact stepSim_zero_dt E k { s with lastTime := ts } hlp hst hobs

/-- Witness for C1 (amended), at the slide-expiry state (slide command, then
17 frames 32 ms apart, so `y = 410` is below the standing ground line 360):
a duplicate callback at `ts = 544` leaves every accumulator unchanged while
the clamp branch snaps `y` to the ground line and zeroes `vy`. -/
theorem c1_duplicate_ts_zero_step_witness :
    (loopStep E0 544 Kind.low (runTrace E0 (slideTrace 17) (initState E0))).score
      = (runTrace E0 (slideTrace 17) (initState E0)).score ∧
    (loopStep E0 544 Kind.low (runTrace E0 (slideTrace 17) (initState E0))).laneProgress
      = (runTrace E0 (slideTrace 17) (initState E0)).laneProgress ∧
    (loopStep E0 544 Kind.low (runTrace E0 (slideTrace 17) (initState E0))).y
      = (if GROUND_Y E0 - currentPlayerH (runTrace E0 (slideTrace 17) (initState E0)).sliding
            < (runTrace E0 (slideTrace 17) (initState E0)).y
         then GROUND_Y E0 - currentPlayerH (runTrace E0 (slideTrace 17) (initState E0)).sliding
         else (runTrace E0 (slideTrace 17) (initState E0)).y) ∧
    (loopStep E0 544 Kind.low (runTrace E0 (slideTrace 17) (initState E0))).vy
      = (if GROUND_Y E0 - currentPlayerH (runTrace E0 (slideTrace 17) (initState E0)).sliding
            < (runTrace E0 (slideTrace 17) (initState E0)).y
         then 0 else (runTrace E0 (slideTrace 17) (initState E0)).vy) ∧
    (loopStep E0 544 Kind.low (runTrace E0 (slideTrace 17) (initState E0))).slideTimer
      = (runTrace E0 (slideTrace 17) (initState E0)).slideTimer ∧
    (loopStep E0 544 Kind.low (runTrace E0 (slideTrace 17) (initState E0))).spawnTimer
      = (runTrace E0 (slideTrace 17) (initState E0)).spawnTimer ∧
    (loopStep E0 544 Kind.low (runTrace E0 (slideTrace 17) (initState E0))).obstacles
      = (runTrace E0 (slideTrace 17) (initState E0)).obstacles :=
  c1_duplicate_ts_zero_step E0 544 Kind.low
    (runTrace E0 (slideTrace 17) (initState E0))
    (by decide) (by decide) (by decide) (by decide) (by decide)

/-- **C1 counterexample.** A non-monotonic timestamp (`ts = 900` after
`lastTime = 1000`) yields `dt = -0.1 ≤ 0`, yet the frame is not a zero-length
step: the score decreases by 20 — negative integration occurs. -/
theorem c1_counterexample :
    min (0.032 : ℚ) (((900 : ℚ) - (runTrace E0 [Ev.frame 1000 Kind.low] (initState E0)).lastTime) / 1000) ≤ 0 ∧
    (loopStep E0 900 Kind.low (runTrace E0 [Ev.frame 1000 Kind.low] (initState E0))).score
      < (runTrace E0 [Ev.frame 1000 Kind.low] (initState E0)).score :=
  ⟨by decide, by decide⟩

/-- **C3 (amended).** One integration step never ends with `verticalPos`
below the ground line for the stance the player had when the physics was
integrated (the stance entering the frame, before slide-timer expiry is
processed on lines 191–194), for every `dt`; and `verticalVel` is reset to 0
upon landing.  (The end-of-frame stance can differ when the slide expires in
the same frame — see the counterexample.) -/
theorem c3_ground_clamp (E : Env) (dt : ℚ) (k : Kind) (s : GameState) :
    (stepSim E dt k s).y ≤ GROUND_Y E - currentPlayerH s.sliding ∧
    (GROUND_Y E - currentPlayerH s.sliding < s.y + (s.vy + GRAVITY * dt) * dt →
      (stepSim E dt k s).vy = 0) := by
  constructor
  · show (if s.y + (s.vy + GRAVITY * dt) * dt > GROUND_Y E - currentPlayerH s.sliding
        then GROUND_Y E - currentPlayerH s.sliding
        else s.y + (s.vy + GRAVITY * dt) * dt) ≤ GROUND_Y E - currentPlayerH s.sliding
    split
    · exact le_refl _
    · next h => exact le_of_not_lt h
  · intro hlt
    show (if s.y + (s.vy + GRAVITY * dt) * dt > GROUND_Y E - currentPlayerH s.sliding
        then (0 : ℚ) else s.vy + GRAVITY * dt) = 0
    rw [if_pos hlt]

/-- Witness for C3 (amended): a large step from the initial state lands and
zeroes the vertical velocity. -/
theorem c3_ground_clamp_witness :
    (stepSim E0 1 Kind.low (initState E0)).y
        ≤ GROUND_Y E0 - currentPlayerH (initState E0).sliding ∧
    (stepSim E0 1 Kind.low (initState E0)).vy = 0 :=
  ⟨(c3_ground_clamp E0 1 Kind.low (initState E0)).1,
   (c3_ground_clamp E0 1 Kind.low (initState E0)).2 (by decide)⟩

/-- **C3 counterexample.** In the reachable state where a slide is about to
expire, one `dt = 0.032 ≥ 0` step clamps `y` to the sliding ground line and
then clears `sliding`, so at the end of the frame `y` is strictly below the
ground line for the (standing) end-of-frame stance. -/
theorem c3_counterexample :
    Reachable E0 (runTrace E0 (slideTrace 16) (initState E0)) ∧
    (0 : ℚ) ≤ 0.032 ∧
    (stepSim E0 0.032 Kind.low (runTrace E0 (slideTrace 16) (initState E0))).sliding = false ∧
    GROUND_Y E0 - currentPlayerH
        (stepSim E0 0.032 Kind.low (runTrace E0 (slideTrace 16) (initState E0))).sliding
      < (stepSim E0 0.032 Kind.low (runTrace E0 (slideTrace 16) (initState E0))).y :=
  ⟨reachable_runTrace E0 (slideTrace 16) (initState E0) Reachable.init,
   by norm_num, by decide, by decide⟩

/-- A frame step re-establishes "sliding implies a positive slide timer". -/
lemma stepSim_slide_inv (E : Env) (dt : ℚ) (k : Kind) (s : GameState) :
    (stepSim E dt k s).sliding = true → 0 < (stepSim E dt k s).slideTimer := by
  by_cases hs : s.sliding = true
  · show (if s.sliding = true then (if s.slideTimer - dt ≤ 0 then false else true)
        else s.sliding) = true → 0 < (if s.sliding = true then s.slideTimer - dt else s.slideTimer)
    rw [if_pos hs, if_pos hs]
    by_cases ht : s.slideTimer - dt ≤ 0
    · rw [if_pos ht]
      intro hcontra
      cases hcontra
    · rw [if_neg ht]
      intro _
      exact lt_of_not_le ht
  · show (if s.sliding = true then (if s.slideTimer - dt ≤ 0 then false else true)
        else s.sliding) = true → 0 < (if s.sliding = true then s.slideTimer - dt else s.slideTimer)
    rw [if_neg hs, if_neg hs]
    intro hcontra
    exact absurd hcontra hs

/-- `beginLaneMove` does not touch the slide state. -/
lemma beginLaneMove_slide_fields (ni : ℤ) (s : GameState) :
    (beginLaneMove ni s).sliding = s.sliding ∧
    (beginLaneMove ni s).slideTimer = s.slideTimer := by
  unfold beginLaneMove
  split <;> exact ⟨rfl, rfl⟩

/-- **C5 (amended).** In every reachable state, if the player is sliding the
slide timer is strictly positive.  (The timer itself is not clamped at 0: on
the frame in which it underruns, `sliding` is cleared but `slideTimer` keeps
its negative value — see the counterexample.) -/
theorem c5_slide_inv_reachable (E : Env) (s : GameState) (h : Reachable E s) :
    s.sliding = true → 0 < s.slideTimer := by
  induction h with
  | init =>
      intro hcontra
      exact Bool.noConfusion hcontra
  | step s ev _hr ih =>
      cases ev with
      | frame ts k => exact stepSim_slide_inv E _ k { s with lastTime := ts }
      | left =>
          intro hb
          have hbl := beginLaneMove_slide_fields (s.laneIndex - 1) s
          show 0 < (beginLaneMove (s.laneIndex - 1) s).slideTimer
          rw [hbl.2]
          exact ih (hbl.1.symm.trans hb)
      | right =>
          intro hb
          have hbl := beginLaneMove_slide_fields (s.laneIndex + 1) s
          show 0 < (beginLaneMove (s.laneIndex + 1) s).slideTimer
          rw [hbl.2]
          exact ih (hbl.1.symm.trans hb)
      | up =>
          have happ : applyEv E s Ev.up = jump E s := rfl
          rw [happ]
          intro hb
          unfold jump at hb ⊢
          by_cases hj : (onGround E s && s.running) = true
          · rw [if_pos hj] at hb
            exact Bool.noConfusion hb
          · rw [if_neg hj] at hb ⊢
            exact ih hb
      | down =>
          have happ : applyEv E s Ev.down = slide E s := rfl
          rw [happ]
          intro hb
          unfold slide at hb ⊢
          by_cases h1 : (!s.running) = true
          · rw [if_pos h1] at hb ⊢
            exact ih hb
          · rw [if_neg h1] at hb ⊢
            by_cases h2 : (!s.sliding && onGround E s) = true
            · rw [if_pos h2]
              show (0 : ℚ) < SLIDE_TIME
              norm_num [SLIDE_TIME]
            · rw [if_neg h2] at hb ⊢
              exact ih hb
      | restart =>
          intro hcontra
          exact Bool.noConfusion hcontra

/-- Witness for C5 (amended): right after the slide command the timer is
positive. -/
theorem c5_slide_inv_reachable_witness :
    0 < (applyEv E0 (initState E0) Ev.down).slideTimer :=
  c5_slide_inv_reachable E0 (applyEv E0 (initState E0) Ev.down)
    (Reachable.step (initState E0) Ev.down Reachable.init) (by decide)

/-- **C5 counterexample.** A reachable state (slide command, then 17 frame
callbacks 32 ms apart) has `slideTimer = -3/250 < 0`: the timer is decremented
past zero on the frame where the slide expires and is never clamped. -/
theorem c5_counterexample :
    Reachable E0 (runTrace E0 (slideTrace 17) (initState E0)) ∧
    (runTrace E0 (slideTrace 17) (initState E0)).slideTimer < 0 :=
  ⟨reachable_runTrace E0 (slideTrace 17) (initState E0) Reachable.init,
   by decide⟩

/-! ## Claims (continued) -/

/-- A frame step never changes the interpolation endpoints. -/
lemma stepSim_lane_fields (E : Env) (dt : ℚ) (k : Kind) (s : GameState) :
    (stepSim E dt k s).laneFrom = s.laneFrom ∧
    (stepSim E dt k s).laneTo = s.laneTo :=
  ⟨rfl, rfl⟩

/-- One frame advances the (clamped) lane progress by `dt / laneSwitchTime`
whenever `dt ≥ 0` and the progress is in range. -/
lemma stepSim_laneProgress (E : Env) (dt : ℚ) (k : Kind) (s : GameState)
    (hp : s.laneProgress ≤ 1) (hdt : 0 ≤ dt) :
    (stepSim E dt k s).laneProgress
      = min 1 (s.laneProgress + dt / LANE_SWITCH_TIME) := by
  show (if s.laneProgress < 1 then min 1 (s.laneProgress + dt / LANE_SWITCH_TIME)
      else s.laneProgress) = min 1 (s.laneProgress + dt / LANE_SWITCH_TIME)
  split
  · rfl
  · next h =>
      have hp1 : s.laneProgress = 1 := le_antisymm hp (not_lt.mp h)
      rw [hp1]
      have hnn : (0 : ℚ) ≤ dt / LANE_SWITCH_TIME := by
        have hT : (0 : ℚ) < LANE_SWITCH_TIME := by norm_num [LANE_SWITCH_TIME]
        positivity
      rw [min_eq_left (by linarith)]

/-- Over a list of nonnegative frame steps, the lane progress is the clamped
sum of the per-frame increments. -/
lemma runFrames_laneProgress (E : Env) (l : List (ℚ × Kind)) (s : GameState)
    (hp : s.laneProgress ≤ 1) (hl : ∀ p ∈ l, 0 ≤ p.1) :
    (runFrames E l s).laneProgress
      = min 1 (s.laneProgress + (l.map Prod.fst).sum / LANE_SWITCH_TIME) := by
  induction l generalizing s with
  | nil =>
      show s.laneProgress
          = min 1 (s.laneProgress + (List.map Prod.fst []).sum / LANE_SWITCH_TIME)
      rw [List.map_nil, List.sum_nil, zero_div, add_zero, min_eq_right hp]
  | cons d t ih =>
      have hT : (0 : ℚ) < LANE_SWITCH_TIME := by norm_num [LANE_SWITCH_TIME]
      have hd : 0 ≤ d.1 := hl d (List.mem_cons_self d t)
      have ht : ∀ p ∈ t, 0 ≤ p.1 := fun p hp2 => hl p (List.mem_cons_of_mem d hp2)
      have hstep := stepSim_laneProgress E d.1 d.2 s hp hd
      have hle : (stepSim E d.1 d.2 s).laneProgress ≤ 1 := by
        rw [hstep]; exact min_le_left _ _
      have hrec := ih (stepSim E d.1 d.2 s) hle ht
      have hsum : 0 ≤ (t.map Prod.fst).sum := List.sum_nonneg (by
        intro x hx
        rcases List.mem_map.mp hx with ⟨p, hp2, rfl⟩
        exact ht p hp2)
      show (runFrames E t (stepSim E d.1 d.2 s)).laneProgress = _
      rw [hrec, hstep]
      rcases le_or_lt (s.laneProgress + d.1 / LANE_SWITCH_TIME) 1 with hc | hc
      · rw [min_eq_right hc, List.map_cons, List.sum_cons, add_div, ← add_assoc]
      · rw [min_eq_left (le_of_lt hc)]
        have h1 : (1 : ℚ) ≤ 1 + (t.map Prod.fst).sum / LANE_SWITCH_TIME := by
          have : (0 : ℚ) ≤ (t.map Prod.fst).sum / LANE_SWITCH_TIME := by positivity
          linarith
        rw [min_eq_left h1]
        have h2 : (1 : ℚ) ≤ s.laneProgress + ((d :: t).map Prod.fst).sum / LANE_SWITCH_TIME := by
          rw [List.map_cons, List.sum_cons, add_div, ← add_assoc]
          have : (0 : ℚ) ≤ (t.map Prod.fst).sum / LANE_SWITCH_TIME := by positivity
          linarith
        rw [min_eq_left h2]

/-- **C6.** From a settled state, after one lane-move command and any
sequence of nonnegative frame steps totalling at least `laneSwitchTime`, the
lane progress is exactly 1 and the interpolated horizontal position is
exactly the target lane's x-coordinate. -/
theorem c6_lane_convergence (E : Env) (s : GameState) (ni : ℤ)
    (l : List (ℚ × Kind))
    (hsettle : s.laneProgress = 1)
    (hl : ∀ p ∈ l, 0 ≤ p.1)
    (hsum : LANE_SWITCH_TIME ≤ (l.map Prod.fst).sum) :
    (runFrames E l (beginLaneMove ni s)).laneProgress = 1 ∧
    playerX E (runFrames E l (beginLaneMove ni s))
      = LANES E (runFrames E l (beginLaneMove ni s)).laneTo := by
  have hT : (0 : ℚ) < LANE_SWITCH_TIME := by norm_num [LANE_SWITCH_TIME]
  have hp0 : (beginLaneMove ni s).laneProgress ≤ 1 ∧
      0 ≤ (beginLaneMove ni s).laneProgress := by
    unfold beginLaneMove
    split
    · exact ⟨le_of_eq hsettle, by rw [hsettle]; norm_num⟩
    · exact ⟨by norm_num, le_refl 0⟩
  have hrun := runFrames_laneProgress E l (beginLaneMove ni s) hp0.1 hl
  have hprog : (runFrames E l (beginLaneMove ni s)).laneProgress = 1 := by
    rw [hrun]
    have h1 : (1 : ℚ) ≤ (l.map Prod.fst).sum / LANE_SWITCH_TIME := by
      rw [le_div_iff₀ hT]
      simpa using hsum
    have h2 := hp0.2
    rw [min_eq_left (by linarith)]
  refine ⟨hprog, ?_⟩
  unfold playerX
  rw [hprog]
  have he : easeOutCubic 1 = 1 := by norm_num [easeOutCubic]
  rw [he, mul_one]
  ring

/-- Witness for C6: move right from the initial state, two 0.1 s frames. -/
theorem c6_lane_convergence_witness :
    (runFrames E0 [((0.1 : ℚ), Kind.low), ((0.1 : ℚ), Kind.low)]
        (beginLaneMove 2 (initState E0))).laneProgress = 1 ∧
    playerX E0 (runFrames E0 [((0.1 : ℚ), Kind.low), ((0.1 : ℚ), Kind.low)]
        (beginLaneMove 2 (initState E0)))
      = LANES E0 (runFrames E0 [((0.1 : ℚ), Kind.low), ((0.1 : ℚ), Kind.low)]
          (beginLaneMove 2 (initState E0))).laneTo :=
  c6_lane_convergence E0 (initState E0) 2
    [((0.1 : ℚ), Kind.low), ((0.1 : ℚ), Kind.low)] rfl (by decide) (by decide)

/-- **C8.** The end-of-frame collision outcome only depends on the multiset
of obstacles, not on their order in the list, although the scan on lines
217–225 stops at the first hit. -/
theorem c8_collision_order_independent (E : Env) (dt : ℚ) (kd : Kind)
    (s : GameState) (l2 : List Obstacle) (h : List.Perm s.obstacles l2) :
    (stepSim E dt kd s).running
      = (stepSim E dt kd { s with obstacles := l2 }).running := by
  have hperm : List.Perm
      (((if decide (SPAWN_EVERY ≤ s.spawnTimer + dt) = true
          then s.obstacles ++ [spawnObstacle E kd] else s.obstacles).map
        fun o => { o with x := o.x - OBSTACLE_SPEED * dt }).filter
          fun o => !decide (o.x < -150))
      (((if decide (SPAWN_EVERY ≤ s.spawnTimer + dt) = true
          then l2 ++ [spawnObstacle E kd] else l2).map
        fun o => { o with x := o.x - OBSTACLE_SPEED * dt }).filter
          fun o => !decide (o.x < -150)) := by
    apply List.Perm.filter
    apply List.Perm.map
    split
    · exact h.append_right _
    · exact h
  exact congrArg (fun b => s.running && !b) (any_of_perm hperm _)

/-- Witness for C8 at a concrete two-obstacle permutation. -/
theorem c8_collision_order_independent_witness :
    (stepSim E0 0.01 Kind.low
        { initState E0 with obstacles :=
            [spawnObstacle E0 Kind.low, spawnObstacle E0 Kind.tall] }).running
      = (stepSim E0 0.01 Kind.low
          { initState E0 with obstacles :=
              [spawnObstacle E0 Kind.tall, spawnObstacle E0 Kind.low] }).running :=
  c8_collision_order_independent E0 0.01 Kind.low
    { initState E0 with obstacles :=
        [spawnObstacle E0 Kind.low, spawnObstacle E0 Kind.tall] }
    [spawnObstacle E0 Kind.tall, spawnObstacle E0 Kind.low]
    (List.Perm.swap _ _ _)

/-- As long as the accumulated time stays short of the spawn interval, the
spawn subsystem only accumulates and never spawns. -/
lemma spawnTick_iter_no_spawn (dt : ℚ) (hdt : 0 ≤ dt) (c : ℕ) :
    ∀ j : ℕ, (j : ℚ) * dt < 1 → (spawnTick dt)^[j] (c, 0) = (c, (j : ℚ) * dt) := by
  intro j
  induction j with
  | zero =>
      intro _
      simp
  | succ j ihj =>
      intro hj
      have hcast : ((j + 1 : ℕ) : ℚ) * dt = (j : ℚ) * dt + dt := by push_cast; ring
      have hj1 : (j : ℚ) * dt + dt < 1 := by rw [← hcast]; exact hj
      have hj2 : (j : ℚ) * dt < 1 := by linarith
      rw [Function.iterate_succ_apply', ihj hj2]
      have hSE : SPAWN_EVERY = 1 := by norm_num [SPAWN_EVERY]
      show (if SPAWN_EVERY ≤ (j : ℚ) * dt + dt then ((c + 1 : ℕ), (0 : ℚ))
          else (c, (j : ℚ) * dt + dt)) = (c, ((j + 1 : ℕ) : ℚ) * dt)
      rw [hSE, if_neg (not_le.mpr hj1), hcast]

/-- Starting from a zero timer, `k` frames at `dt = 1/k` spawn exactly once,
ending with a zero timer again (the timer hits the interval exactly). -/
lemma spawnRun_period (k : ℕ) (hk : 1 ≤ k) (c : ℕ) :
    spawnRun ((1 : ℚ)/(k : ℚ)) k (c, 0) = (c + 1, 0) := by
  obtain ⟨k1, rfl⟩ : ∃ k1, k = k1 + 1 := ⟨k - 1, (Nat.succ_pred_eq_of_pos hk).symm⟩
  have hkpos : (0 : ℚ) < ((k1 + 1 : ℕ) : ℚ) := by positivity
  have hlt : (k1 : ℚ) * ((1 : ℚ)/((k1 + 1 : ℕ) : ℚ)) < 1 := by
    rw [mul_one_div, div_lt_one hkpos]
    push_cast
    linarith
  have hno := spawnTick_iter_no_spawn ((1 : ℚ)/((k1 + 1 : ℕ) : ℚ)) (by positivity) c k1 hlt
  show (spawnTick ((1 : ℚ)/((k1 + 1 : ℕ) : ℚ)))^[k1 + 1] (c, 0) = _
  rw [Function.iterate_succ_apply', hno]
  have hone : (k1 : ℚ) * ((1 : ℚ)/((k1 + 1 : ℕ) : ℚ)) + 1/((k1 + 1 : ℕ) : ℚ) = 1 := by
    rw [mul_one_div, div_add_div_same, div_eq_one_iff_eq (ne_of_gt hkpos)]
    push_cast
    ring
  show (if SPAWN_EVERY ≤ (k1 : ℚ) * ((1 : ℚ)/((k1 + 1 : ℕ) : ℚ)) + 1/((k1 + 1 : ℕ) : ℚ)
      then ((c + 1 : ℕ), (0 : ℚ))
      else (c, (k1 : ℚ) * ((1 : ℚ)/((k1 + 1 : ℕ) : ℚ)) + 1/((k1 + 1 : ℕ) : ℚ)))
    = ((c + 1 : ℕ), (0 : ℚ))
  rw [if_pos (by rw [hone]; norm_num [SPAWN_EVERY])]

/-- When the step size divides the spawn interval, `N·k` frames at
`dt = 1/k` spawn exactly `N` obstacles. -/
lemma spawnRun_exact (k : ℕ) (hk : 1 ≤ k) (N : ℕ) :
    spawnRun ((1 : ℚ)/(k : ℚ)) (N * k) (0, 0) = (N, 0) := by
  induction N with
  | zero =>
      rw [Nat.zero_mul]
      rfl
  | succ N ihN =>
      have hmul : (N + 1) * k = k + N * k := by ring
      rw [spawnRun, hmul, Function.iterate_add_apply]
      have hNk : (spawnTick ((1 : ℚ)/(k : ℚ)))^[N * k] (0, 0) = ((N : ℕ), (0 : ℚ)) := ihN
      rw [hNk]
      exact spawnRun_period k hk N

/-- **C4 (amended).** The spawn accumulator of lines 197–201 resets to zero
(discarding the overshoot), so the "exactly `N` obstacles in
`N · spawnInterval` seconds" cadence holds for constant steps `dt = 1/k`
that divide the interval; in every case at most one obstacle is spawned per
step.  (For non-dividing `dt` the cadence undercounts — see the
counterexample.) -/
theorem c4_spawn_cadence (E : Env) :
    (∀ k : ℕ, 1 ≤ k → ∀ N : ℕ, spawnRun ((1 : ℚ)/(k : ℚ)) (N * k) (0, 0) = (N, 0)) ∧
    (∀ (dt : ℚ) (kd : Kind) (s : GameState),
      (stepSim E dt kd s).obstacles.length ≤ s.obstacles.length + 1) := by
  constructor
  · exact fun k hk N => spawnRun_exact k hk N
  · intro dt kd s
    have hle : ∀ l0 : List Obstacle,
        ((l0.map fun o : Obstacle => { o with x := o.x - OBSTACLE_SPEED * dt }).filter
          fun o : Obstacle => !decide (o.x < (-150 : ℚ))).length ≤ l0.length := by
      intro l0
      calc ((l0.map fun o : Obstacle => { o with x := o.x - OBSTACLE_SPEED * dt }).filter
            fun o : Obstacle => !decide (o.x < (-150 : ℚ))).length
          ≤ (l0.map fun o : Obstacle => { o with x := o.x - OBSTACLE_SPEED * dt }).length :=
            List.length_filter_le _ _
        _ = l0.length := List.length_map _ _
    show (((if decide (SPAWN_EVERY ≤ s.spawnTimer + dt) = true
        then s.obstacles ++ [spawnObstacle E kd] else s.obstacles).map
          fun o : Obstacle => { o with x := o.x - OBSTACLE_SPEED * dt }).filter
            fun o : Obstacle => !decide (o.x < (-150 : ℚ))).length ≤ s.obstacles.length + 1
    split
    · calc _ ≤ (s.obstacles ++ [spawnObstacle E kd]).length := hle _
        _ = s.obstacles.length + 1 := by simp
    · exact le_trans (hle s.obstacles) (Nat.le_succ _)

/-- Witness for C4 (amended): `dt = 1/5`, three intervals, and the per-step
cap at a concrete state. -/
theorem c4_spawn_cadence_witness :
    spawnRun ((1 : ℚ)/((5 : ℕ) : ℚ)) (3 * 5) (0, 0) = (3, 0) ∧
    (stepSim E0 1 Kind.low (initState E0)).obstacles.length
      ≤ (initState E0).obstacles.length + 1 :=
  ⟨(c4_spawn_cadence E0).1 5 (by norm_num) 3,
   (c4_spawn_cadence E0).2 1 Kind.low (initState E0)⟩

/-- **C4 counterexample.** `dt = 0.032` (the loop's own clamp value) does not
divide the 1 s spawn interval: 125 such steps simulate exactly
`4 · spawnInterval` seconds but spawn only 3 obstacles, because the reset to
zero discards the overshoot at each spawn. -/
theorem c4_counterexample :
    (125 : ℚ) * 0.032 = 4 * SPAWN_EVERY ∧ (0 : ℚ) < 0.032 ∧
    (spawnRun 0.032 125 (0, 0)).1 = 3 := by
  refine ⟨by norm_num [SPAWN_EVERY], by norm_num, ?_⟩
  have hper : ∀ c : ℕ, (spawnTick (0.032 : ℚ))^[32] (c, 0) = (c + 1, 0) := by
    intro c
    rw [show (32 : ℕ) = 31 + 1 from rfl, Function.iterate_succ_apply',
      spawnTick_iter_no_spawn (0.032 : ℚ) (by norm_num) c 31 (by norm_num)]
    show (if SPAWN_EVERY ≤ (31 : ℚ) * 0.032 + 0.032 then ((c + 1 : ℕ), (0 : ℚ))
        else (c, (31 : ℚ) * 0.032 + 0.032)) = ((c + 1 : ℕ), (0 : ℚ))
    rw [if_pos (by norm_num [SPAWN_EVERY])]
  have h1 : (spawnTick (0.032 : ℚ))^[32] ((0 : ℕ), (0 : ℚ)) = (1, 0) := by
    simpa using hper 0
  have h2 : (spawnTick (0.032 : ℚ))^[32] ((1 : ℕ), (0 : ℚ)) = (2, 0) := by
    simpa using hper 1
  have h3 : (spawnTick (0.032 : ℚ))^[32] ((2 : ℕ), (0 : ℚ)) = (3, 0) := by
    simpa using hper 2
  have h29 : (spawnTick (0.032 : ℚ))^[29] ((3 : ℕ), (0 : ℚ)) = (3, (29 : ℚ) * 0.032) :=
    spawnTick_iter_no_spawn (0.032 : ℚ) (by norm_num) 3 29 (by norm_num)
  show ((spawnTick (0.032 : ℚ))^[125] ((0 : ℕ), (0 : ℚ))).1 = 3
  rw [show (125 : ℕ) = 29 + (32 + (32 + 32)) from rfl,
    Function.iterate_add_apply, Function.iterate_add_apply,
    Function.iterate_add_apply, h1, h2, h3, h29]

/-- **C7.** The strict AABB test (lines 136–138) is true for the overlapping
player/obstacle pair of the spec, false without horizontal overlap, and false
for every pair of boxes sharing only a touching edge, since all four
comparisons are strict. -/
theorem c7_aabb_cases :
    collides 100 100 80 120 100 130 80 70 = true ∧
    collides 100 100 80 120 300 100 80 120 = false ∧
    ∀ ax ay aw ah bx b_y bw bh : ℚ,
      ax + aw = bx ∨ bx + bw = ax ∨ ay + ah = b_y ∨ b_y + bh = ay →
      collides ax ay aw ah bx b_y bw bh = false := by
  refine ⟨by decide, by decide, ?_⟩
  intro ax ay aw ah bx b_y bw bh h
  simp only [collides, decide_eq_false_iff_not]
  rintro ⟨h1, h2, h3, h4⟩
  rcases h with h | h | h | h <;> linarith

/-- Witness for C7 at a concrete edge-touching pair. -/
theorem c7_aabb_cases_witness :
    collides 0 0 10 10 10 0 10 10 = false :=
  c7_aabb_cases.2.2 0 0 10 10 10 0 10 10 (Or.inl (by norm_num))

/-- **C9.** After any event sequence, `reset()` (lines 42–55) restores every
simulation field to the documented initial values: running, zero score,
settled center lane, grounded standing stance, no slide, no obstacles, zero
spawn timer. -/
theorem c9_reset_completeness (E : Env) (evs : List Ev) (s : GameState) :
    (reset E (runTrace E evs s)).running = true ∧
    (reset E (runTrace E evs s)).score = 0 ∧
    (reset E (runTrace E evs s)).laneIndex = 1 ∧
    (reset E (runTrace E evs s)).laneFrom = 1 ∧
    (reset E (runTrace E evs s)).laneTo = 1 ∧
    (reset E (runTrace E evs s)).laneProgress = 1 ∧
    (reset E (runTrace E evs s)).obstacles = [] ∧
    (reset E (runTrace E evs s)).spawnTimer = 0 ∧
    (reset E (runTrace E evs s)).sliding = false ∧
    (reset E (runTrace E evs s)).slideTimer = 0 ∧
    (reset E (runTrace E evs s)).y = GROUND_Y E - PLAYER_H ∧
    (reset E (runTrace E evs s)).vy = 0 :=
  ⟨rfl, rfl, rfl, rfl, rfl, rfl, rfl, rfl, rfl, rfl, rfl, rfl⟩

/-- **C2.** Once `running` is false, any further sequence of frame steps
leaves the score unchanged and the flag false (lines 169–171, 217–225): the
Running → Ended transition fires at most once per run. -/
theorem c2_terminal_no_score (E : Env) (s : GameState) (l : List (ℚ × Kind))
    (h : s.running = false) :
    (runFrames E l s).score = s.score ∧ (runFrames E l s).running = false := by
  induction l generalizing s with
  | nil => exact ⟨rfl, h⟩
  | cons p l ih =>
      have h1 := stepSim_not_running E p.1 p.2 s h
      have h2 := ih (stepSim E p.1 p.2 s) h1.2
      simp only [runFrames, List.foldl_cons] at h2 ⊢
      exact ⟨h2.1.trans h1.1, h2.2⟩

/-- Witness for C2: one extra frame after a dead run. -/
theorem c2_terminal_no_score_witness :
    (runFrames E0 [((0.032 : ℚ), Kind.low)]
        { initState E0 with running := false }).score
      = ({ initState E0 with running := false } : GameState).score ∧
    (runFrames E0 [((0.032 : ℚ), Kind.low)]
        { initState E0 with running := false }).running = false :=
  c2_terminal_no_score E0 { initState E0 with running := false }
    [((0.032 : ℚ), Kind.low)] rfl

/-- **C10.** While running, every frame adds exactly `⌊200 dt⌋` to the score;
any frame with `0 ≤ dt < 0.005` adds nothing; and through the `loop` entry
point the clamp `dt = min(0.032, ·)` caps the per-frame increment at 6. -/
theorem c10_score_increment (E : Env) (kd : Kind) (s : GameState)
    (hr : s.running = true) :
    (∀ dt : ℚ, (stepSim E dt kd s).score = s.score + ⌊(200 : ℚ) * dt⌋) ∧
    (∀ dt : ℚ, 0 ≤ dt → dt < 0.005 → (stepSim E dt kd s).score = s.score) ∧
    (∀ ts : ℚ, (loopStep E ts kd s).score ≤ s.score + 6) := by
  refine ⟨fun dt => stepSim_score E dt kd s hr, ?_, ?_⟩
  · intro dt h0 h5
    rw [stepSim_score E dt kd s hr]
    have hz : ⌊(200 : ℚ) * dt⌋ = 0 := by
      rw [Int.floor_eq_zero_iff, Set.mem_Ico]
      refine ⟨by positivity, by nlinarith⟩
    rw [hz, add_zero]
  · intro ts
    have h3 := stepSim_score E
      (min 0.032 ((ts - (if s.lastTime = 0 then ts else s.lastTime)) / 1000)) kd
      { s with lastTime := ts } hr
    have h4 : (loopStep E ts kd s).score
        = s.score + ⌊(200 : ℚ) * min 0.032 ((ts - (if s.lastTime = 0 then ts else s.lastTime)) / 1000)⌋ := h3
    rw [h4]
    have h2 : ⌊(200 : ℚ) * min (0.032 : ℚ) ((ts - (if s.lastTime = 0 then ts else s.lastTime)) / 1000)⌋ ≤ 6 := by
      have h1 : min (0.032 : ℚ) ((ts - (if s.lastTime = 0 then ts else s.lastTime)) / 1000) ≤ 0.032 :=
        min_le_left _ _
      calc ⌊(200 : ℚ) * min (0.032 : ℚ) ((ts - (if s.lastTime = 0 then ts else s.lastTime)) / 1000)⌋
          ≤ ⌊(200 : ℚ) * 0.032⌋ := Int.floor_le_floor (by nlinarith)
        _ = 6 := by norm_num
    exact add_le_add_left h2 s.score

/-- Witness for C10 at concrete frames. -/
theorem c10_score_increment_witness :
    (stepSim E0 1 Kind.low (initState E0)).score
        = (initState E0).score + ⌊(200 : ℚ) * 1⌋ ∧
    (stepSim E0 0.001 Kind.low (initState E0)).score = (initState E0).score ∧
    (loopStep E0 32 Kind.low (initState E0)).score ≤ (initState E0).score + 6 :=
  ⟨(c10_score_increment E0 Kind.low (initState E0) rfl).1 1,
   (c10_score_increment E0 Kind.low (initState E0) rfl).2.1 0.001 (by norm_num)
     (by norm_num),
   (c10_score_increment E0 Kind.low (initState E0) rfl).2.2 32⟩

end Runner
